import Mathlib

/-!
Verification of `rundogd` (src/rundogd.py), a filesystem-change-triggered
process supervisor.  The Python source is shallowly embedded: the `Runner`
class becomes a state-transition function over an explicit `RunnerState`
plus a `FileWorld` modelling the OS resources (file descriptors, child
processes, files); the debounce handler becomes a function on timestamped
event traces; the driver loop in `main` becomes a function of the sequence
of poll observations.  Fallible OS calls are driven by explicit `OSBehavior`
booleans (true = the call succeeds, false = it raises `OSError`), and the
Python `try/except` structure is translated with `Except`.
-/

namespace Rundogd

/-- Python `OSError`, carrying a message used in `print('Failed to start process:', e)`. -/
structure OSError where
  msg : String
  deriving DecidableEq, Repr

/-- The stream a `print` call writes to.  All `print` calls in rundogd use the
default `file=sys.stdout`. -/
inductive Stream where
  | stdout
  | stderr
  deriving DecidableEq, Repr

/-- `os.O_WRONLY` (Linux value, as named in `Runner.restart`). -/
def O_WRONLY : Nat := 1
/-- `os.O_CREAT` (Linux value). -/
def O_CREAT : Nat := 64
/-- `os.O_TRUNC` (Linux value). -/
def O_TRUNC : Nat := 512

/-- Observable OS operations performed by the `Runner`, recorded as a trace. -/
inductive Op where
  /-- `self.process.terminate(); self.process.wait()` on the child with this pid. -/
  | terminate (pid : Nat)
  /-- `os.close(fd)`. -/
  | close (fd : Nat)
  /-- `os.open(path, flags, mode)` returning `fd`. -/
  | openFile (path : String) (flags : Nat) (mode : Nat) (fd : Nat)
  /-- `subprocess.Popen(command, stdout=outfp, stderr=errfp)` returning `pid`;
  a `none` stream argument means the child inherits the caller's stream. -/
  | spawn (pid : Nat) (stdoutFd : Option Nat) (stderrFd : Option Nat)
  deriving DecidableEq, Repr

/-- A child process handle (`subprocess.Popen` object): its pid and its exit
status (`returncode`), `none` while still running. -/
structure Proc where
  pid : Nat
  status : Option Int
  deriving DecidableEq, Repr

/-- The mutable fields of the Python `Runner` object
(`command`, `stdout`, `stderr`, `outfp`, `errfp`, `process`). -/
structure RunnerState where
  command : List String
  stdout : Option String
  stderr : Option String
  outfp : Option Nat
  errfp : Option Nat
  process : Option Proc
  deriving DecidableEq, Repr

/-- The OS resources touched by the `Runner`: a file-descriptor allocator, a
pid allocator, the set of descriptors the runner holds open, the set of live
child processes, and the files on disk (path, size). -/
structure FileWorld where
  nextFd : Nat
  nextPid : Nat
  openFds : Finset Nat
  livePids : Finset Nat
  files : List (String × Nat)
  deriving DecidableEq

/-- Success/failure of each fallible OS call made during one `restart`
(true = the call succeeds, false = it raises `OSError`). -/
structure OSBehavior where
  termOk : Bool
  outOpenOk : Bool
  errOpenOk : Bool
  spawnOk : Bool
  deriving DecidableEq, Repr

/-- Python truthiness of an optional string: `None` and `''` are falsy. -/
def truthyStr : Option String → Bool
  | none => false
  | some s => s ≠ ""

/-- Python truthiness of an optional file descriptor: `None` and `0` are falsy. -/
def truthyFd : Option Nat → Bool
  | none => false
  | some n => n ≠ 0

/-- Update the size stored for `path`, adding the file if absent. -/
def setFile : List (String × Nat) → String → Nat → List (String × Nat)
  | [], p, n => [(p, n)]
  | (q, m) :: fs, p, n => if q = p then (q, n) :: fs else (q, m) :: setFile fs p n

/-- `os.open(path, O_WRONLY|O_CREAT|O_TRUNC, mode)`: allocates a fresh
descriptor and leaves the file existing with size 0 (created if missing,
truncated if present). -/
def FileWorld.openTrunc (w : FileWorld) (path : String) : FileWorld × Nat :=
  ({ w with
      nextFd := w.nextFd + 1
      openFds := insert w.nextFd w.openFds
      files := setFile w.files path 0 }, w.nextFd)

/-- `os.close(fd)`. -/
def FileWorld.closeFd (w : FileWorld) (fd : Nat) : FileWorld :=
  { w with openFds := w.openFds.erase fd }

/-- `subprocess.Popen(...)`: allocates a fresh pid, now live. -/
def FileWorld.spawn (w : FileWorld) : FileWorld × Nat :=
  ({ w with nextPid := w.nextPid + 1, livePids := insert w.nextPid w.livePids },
   w.nextPid)

/-- `self.process.terminate(); self.process.wait()`.  Succeeds (killing the
child) when `osOk`; raises `OSError` when the process is already gone. -/
def procTerminateWait (osOk : Bool) : Except OSError Unit :=
  if osOk then .ok () else .error ⟨"OSError"⟩

/-- `Runner.terminate` (src/rundogd.py lines 39-46): if a process is tracked,
try to terminate and reap it, swallowing `OSError`, and clear the handle.
Returns the new runner state, the world, and the trace of operations. -/
def Runner.terminate (s : RunnerState) (w : FileWorld) (osOk : Bool) :
    RunnerState × FileWorld × List Op :=
  match s.process with
  | none => (s, w, [])
  | some p =>
      let w' := { w with livePids := w.livePids.erase p.pid }
      match procTerminateWait osOk with
      | .ok () => ({ s with process := none }, w', [Op.terminate p.pid])
      | .error _ => ({ s with process := none }, w', [Op.terminate p.pid])

/-- `Runner.poll` (src/rundogd.py lines 30-37): non-blocking status probe.
Returns `returncode` (which is `none` while the child runs) when a process is
tracked and the OS call succeeds; on `OSError` clears the handle and returns
`none`; with no tracked process returns `none`. -/
def Runner.poll (s : RunnerState) (osOk : Bool) : Option Int × RunnerState :=
  match s.process with
  | none => (none, s)
  | some p =>
      if osOk then (p.status, s)
      else (none, { s with process := none })

/-- The `try:` block of `Runner.restart` (src/rundogd.py lines 57-75): open the
redirect files if their paths are truthy, then spawn the child.  An `OSError`
carries out the world and trace accumulated before the failure. -/
def Runner.restartTry (s : RunnerState) (w : FileWorld) (b : OSBehavior) :
    Except (OSError × FileWorld × List Op) (RunnerState × FileWorld × List Op) :=
  match (if truthyStr s.stdout then
           if b.outOpenOk then
             let (w', fd) := w.openTrunc (s.stdout.getD "")
             Except.ok ({ s with outfp := some fd }, w',
               [Op.openFile (s.stdout.getD "") (O_WRONLY ||| O_CREAT ||| O_TRUNC) 0o644 fd])
           else Except.error (⟨"OSError"⟩, w, ([] : List Op))
         else Except.ok (s, w, ([] : List Op))) with
  | .error x => .error x
  | .ok (s1, w1, ops1) =>
    match (if truthyStr s1.stderr then
             if b.errOpenOk then
               let (w', fd) := w1.openTrunc (s1.stderr.getD "")
               Except.ok ({ s1 with errfp := some fd }, w',
                 [Op.openFile (s1.stderr.getD "") (O_WRONLY ||| O_CREAT ||| O_TRUNC) 0o644 fd])
             else Except.error (⟨"OSError"⟩, w1, ([] : List Op))
           else Except.ok (s1, w1, ([] : List Op))) with
    | .error (e, w2, ops2) => .error (e, w2, ops1 ++ ops2)
    | .ok (s2, w2, ops2) =>
        if b.spawnOk then
          let (w3, pid) := w2.spawn
          .ok ({ s2 with process := some ⟨pid, none⟩ }, w3,
               ops1 ++ ops2 ++ [Op.spawn pid s2.outfp s2.errfp])
        else .error (⟨"OSError"⟩, w2, ops1 ++ ops2)

/-- Result of `Runner.restart`: either the program keeps running with new
state, or `sys.exit(code)` was called.  `ops` is the OS-operation trace and
`out` the `print` output (stream-tagged lines). -/
structure RestartOut where
  exitCode : Option Nat
  state : RunnerState
  world : FileWorld
  ops : List Op
  out : List (Stream × String)
  deriving DecidableEq

/-- `Runner.restart` (src/rundogd.py lines 48-78): terminate any tracked
process, close the previously opened redirect descriptors (guarded by Python
truthiness of the stored fds), echo the command, then run the `try:` block;
`except OSError` prints a diagnostic and calls `sys.exit(1)`. -/
def Runner.restart (s : RunnerState) (w : FileWorld) (b : OSBehavior) : RestartOut :=
  let (s1, w1, ops1) := Runner.terminate s w b.termOk
  let (w2, ops2) :=
    match s1.outfp with
    | some fd => if fd ≠ 0 then (w1.closeFd fd, [Op.close fd]) else (w1, [])
    | none => (w1, [])
  let (w3, ops3) :=
    match s1.errfp with
    | some fd => if fd ≠ 0 then (w2.closeFd fd, [Op.close fd]) else (w2, [])
    | none => (w2, [])
  let echo := (Stream.stdout, "$ " ++ String.intercalate " " s1.command)
  match Runner.restartTry s1 w3 b with
  | .ok (s2, w4, ops4) =>
      { exitCode := none, state := s2, world := w4,
        ops := ops1 ++ ops2 ++ ops3 ++ ops4, out := [echo] }
  | .error (e, w4, ops4) =>
      { exitCode := some 1, state := s1, world := w4,
        ops := ops1 ++ ops2 ++ ops3 ++ ops4,
        out := [echo, (Stream.stdout, "Failed to start process: " ++ e.msg)] }

/-- The field values `Runner.__init__` (src/rundogd.py lines 21-27) sets before
it calls `restart()`: all handle fields are `None`. -/
def initRunnerState (command : List String) (stdout stderr : Option String) :
    RunnerState :=
  { command := command, stdout := stdout, stderr := stderr,
    outfp := none, errfp := none, process := none }

/-- The OS world at program start: descriptors 0-2 are the standard streams,
so freshly opened descriptors start at 3; the runner holds no descriptors and
no child is live. -/
def initWorld : FileWorld :=
  { nextFd := 3, nextPid := 1, openFds := ∅, livePids := ∅, files := [] }

/-- `Runner.__init__` (src/rundogd.py lines 21-28): all handle fields start as
`None`, then `restart()` runs once. -/
def Runner.init (command : List String) (stdout stderr : Option String)
    (w : FileWorld) (b : OSBehavior) : RestartOut :=
  Runner.restart (initRunnerState command stdout stderr) w b

/-- N successive `restart()` calls, each driven by its own OS behavior,
collecting every call's result. -/
def restartSeq : RunnerState → FileWorld → List OSBehavior → List RestartOut
  | _, _, [] => []
  | s, w, b :: bs =>
      let r := Runner.restart s w b
      r :: restartSeq r.state r.world bs

/-! ## Resource accounting for the Runner -/

/-- The descriptors currently referenced by the runner's handle fields. -/
def handleFds (s : RunnerState) : Finset Nat :=
  (s.outfp.toList ++ s.errfp.toList).toFinset

/-- The pid of the tracked process, as a (zero- or one-element) set. -/
def trackedPids (s : RunnerState) : Finset Nat :=
  ((s.process.map Proc.pid).toList).toFinset

/-- The descriptors a trace closes, in order. -/
def closedFds (ops : List Op) : List Nat :=
  ops.filterMap fun op =>
    match op with
    | .close fd => some fd
    | _ => none

/-- The set of open descriptors after running a trace against a starting set. -/
def applyOps (fds : Finset Nat) : List Op → Finset Nat
  | [] => fds
  | .close fd :: ops => applyOps (fds.erase fd) ops
  | .openFile _ _ _ fd :: ops => applyOps (insert fd fds) ops
  | .terminate _ :: ops => applyOps fds ops
  | .spawn _ _ _ :: ops => applyOps fds ops

/-- A trace never closes a descriptor that is not open at that point (so no
double-close and no close of a never-opened descriptor). -/
def closesValid (fds : Finset Nat) : List Op → Bool
  | [] => true
  | .close fd :: ops => fd ∈ fds && closesValid (fds.erase fd) ops
  | .openFile _ _ _ fd :: ops => closesValid (insert fd fds) ops
  | .terminate _ :: ops => closesValid fds ops
  | .spawn _ _ _ :: ops => closesValid fds ops

/-- The phase of an operation inside one `restart` call: terminate first, then
closes, then opens, then the spawn. -/
def opPhase : Op → Nat
  | .terminate _ => 0
  | .close _ => 1
  | .openFile _ _ _ _ => 2
  | .spawn _ _ _ => 3

/-- Size of a file on disk, `none` if absent. -/
def lookupFile : List (String × Nat) → String → Option Nat
  | [], _ => none
  | (q, m) :: fs, p => if q = p then some m else lookupFile fs p

/-- The state invariant tying a `RunnerState` to the OS world: the runner's
open descriptors are exactly its two handle fields, which are positive (Python
truthiness would skip closing descriptor 0), distinct, below the allocator,
and absent when the corresponding redirect path is falsy; the live children
are exactly the tracked process, whose pid is below the pid allocator. -/
structure RunnerInv (s : RunnerState) (w : FileWorld) : Prop where
  fds : w.openFds = handleFds s
  outPos : ∀ fd ∈ s.outfp, 0 < fd ∧ fd < w.nextFd
  errPos : ∀ fd ∈ s.errfp, 0 < fd ∧ fd < w.nextFd
  outErrNe : ∀ o ∈ s.outfp, ∀ e ∈ s.errfp, o ≠ e
  outNone : truthyStr s.stdout = false → s.outfp = none
  errNone : truthyStr s.stderr = false → s.errfp = none
  live : w.livePids = trackedPids s
  pidLt : ∀ p ∈ s.process, p.pid < w.nextPid
  fdPos : 0 < w.nextFd

/-! ## Debounce coordinator (`ChangeHandler`) and event filtering -/

/-- Modelled from the spec: shell-style glob matching as used by the external
watchdog `PatternMatchingEventHandler` (Python `fnmatch`), which is not part of
this repository.  `*` matches any sequence, `?` any single character, other
characters match literally (character classes are not used by this program).
The fuel argument only makes the recursion structural: every step consumes
one unit while shrinking `pattern.length + path.length`, so the initial fuel
of `globMatch` is never exhausted. -/
def globMatchFuel : Nat → List Char → List Char → Bool
  | 0, _, _ => false
  | _ + 1, [], [] => true
  | _ + 1, [], _ :: _ => false
  | fuel + 1, '*' :: ps, [] => globMatchFuel fuel ps []
  | fuel + 1, '*' :: ps, c :: cs =>
      globMatchFuel fuel ps (c :: cs) || globMatchFuel fuel ('*' :: ps) cs
  | fuel + 1, '?' :: ps, _ :: cs => globMatchFuel fuel ps cs
  | fuel + 1, p :: ps, c :: cs => p = c && globMatchFuel fuel ps cs
  | _ + 1, _ :: _, [] => false

/-- Glob matching with enough fuel for the whole input. -/
def globMatch (ps cs : List Char) : Bool :=
  globMatchFuel (ps.length + cs.length + 1) ps cs

/-- `fnmatch(path, pattern)` on strings. -/
def fnmatch (pat path : String) : Bool := globMatch pat.data path.data

/-- The filter configuration handed to `PatternMatchingEventHandler` in `main`
(`patterns=only, ignore_patterns=exclude, ignore_directories=args.exclude_dir`). -/
structure FilterSpec where
  patterns : Option (List String)
  ignorePatterns : Option (List String)
  ignoreDirectories : Bool
  deriving DecidableEq, Repr

/-- A filesystem event: directory flag, source path, and (for moves) an
optional destination path. -/
structure FsEvent where
  isDirectory : Bool
  srcPath : String
  destPath : Option String
  deriving DecidableEq, Repr

/-- The paths the watchdog filter inspects: destination path (when present)
and source path. -/
def eventPaths (e : FsEvent) : List String :=
  e.destPath.toList ++ [e.srcPath]

/-- Does any of the paths match any of the patterns? -/
def matchAny (pats : List String) (paths : List String) : Bool :=
  paths.any fun p => pats.any fun pat => fnmatch pat p

/-- Modelled from the spec: the event filter of the external watchdog
`PatternMatchingEventHandler` (not part of this repository).  An event
qualifies when it survives the directory exclusion, does not match any
exclude pattern, and matches some `only` pattern (no `only` set = match
all). -/
def eventQualifies (f : FilterSpec) (e : FsEvent) : Bool :=
  if f.ignoreDirectories && e.isDirectory then false
  else if (match f.ignorePatterns with
           | some pats => matchAny pats (eventPaths e)
           | none => false) then false
  else match f.patterns with
       | some pats => matchAny pats (eventPaths e)
       | none => true

/-- The mutable state of `ChangeHandler` relevant to debouncing: its filter,
the `wait` duration, and the pending timer's fire deadline (`none` when no
timer is pending).  Time is modelled by rationals. -/
structure HandlerState where
  filter : FilterSpec
  wait : ℚ
  timer : Option ℚ
  deriving DecidableEq, Repr

/-- Is the pending timer still alive at time `now` (scheduled but not yet at
its deadline)? -/
def timerAlive (timer : Option ℚ) (now : ℚ) : Bool :=
  match timer with
  | none => false
  | some d => now < d

/-- `ChangeHandler.on_any_event` (src/rundogd.py lines 90-108) at time `now`:
cancel the pending timer if it is still alive, then schedule a fresh timer
firing `wait` seconds from now. -/
def ChangeHandler.onAnyEvent (h : HandlerState) (now : ℚ) : HandlerState :=
  let h1 := if timerAlive h.timer now then { h with timer := none } else h
  { h1 with timer := some (now + h.wait) }

/-- The watchdog `dispatch` wrapping `on_any_event`: events that fail the
filter never reach the handler, so the debounce state is untouched. -/
def ChangeHandler.dispatch (h : HandlerState) (now : ℚ) (e : FsEvent) : HandlerState :=
  if eventQualifies h.filter e then ChangeHandler.onAnyEvent h now else h

/-- The restart times produced by feeding qualifying events (their timestamps,
in order) through `on_any_event`, starting with pending deadline `pending`.
A pending timer whose deadline has passed by the time the next event arrives
has fired (one restart); otherwise the event cancels it.  After the last
event, the pending timer fires. -/
def debounceFires (wait : ℚ) : List ℚ → Option ℚ → List ℚ
  | [], pending => pending.toList
  | t :: ts, pending =>
      match pending with
      | some d =>
          if d ≤ t then d :: debounceFires wait ts (some (t + wait))
          else debounceFires wait ts (some (t + wait))
      | none => debounceFires wait ts (some (t + wait))

/-! ## Driver loop (`main`, src/rundogd.py lines 233-244) -/

/-- The `while True: sleep(1); if (not persist) and (poll() is not None): break`
loop, given the sequence of values `runner.poll()` returns on successive
ticks: the index of the tick on which the loop breaks, or `none` if it never
breaks within the observed sequence. -/
def loopRun (persist : Bool) : List (Option Int) → Option Nat
  | [] => none
  | p :: ps =>
      if !persist && p.isSome then some 0
      else (loopRun persist ps).map Nat.succ

/-! ## Argument handling and path validation (`main`, src/rundogd.py 179-230) -/

/-- The parsed command-line arguments consumed by `main` (the argparse layer
itself is external; repeatable `nargs=1` options are modelled as the list of
collected values, `none` when the flag was never given). -/
structure Args where
  path : Option (List String)
  persist : Bool
  exclude : Option (List String)
  excludeDir : Bool
  only : Option (List String)
  wait : ℚ
  stdout : Option String
  stderr : Option String
  command : String
  args : List String
  deriving DecidableEq, Repr

/-- Modelled from the spec: POSIX `os.path.dirname` (Python standard library,
not part of this repository) — everything up to the last `/`, with trailing
slashes stripped unless the result is all slashes; no `/` means the empty
string. -/
def dirnameChars (p : List Char) : List Char :=
  let i := (p.reverse.indexOf '/')
  if i = p.length then []
  else
    let head := p.take (p.length - i)
    if head.all (· = '/') then head
    else head.reverse.dropWhile (· = '/') |>.reverse

/-- `os.path.dirname` on strings. -/
def dirname (p : String) : String := ⟨dirnameChars p.data⟩

/-- Modelled from the spec: POSIX `os.path.expanduser` (Python standard
library, not part of this repository) — a leading `~` names a user whose home
directory replaces the `~component`; a bare `~` means `home`, `~user` is
resolved through `userHome` (unresolvable users leave the path unchanged).
Trailing slashes of the home directory are stripped. -/
def expanduser (home : String) (userHome : String → Option String) (p : String) : String :=
  match p.data with
  | '~' :: rest =>
      let user : String := ⟨rest.takeWhile (· ≠ '/')⟩
      let tail : List Char := rest.dropWhile (· ≠ '/')
      let uh := if user = "" then some home else userHome user
      (match uh with
       | none => p
       | some h =>
          let h' : String := ⟨h.data.reverse.dropWhile (· = '/') |>.reverse⟩
          let r : String := h' ++ ⟨tail⟩
          if r = "" then "/" else r)
  | _ => p

/-- The watch-path list before validation (src/rundogd.py lines 179-184):
the `--path` values when given, otherwise the single path inferred from the
command (`os.path.expanduser(os.path.dirname(args.command))`). -/
def collectPaths (home : String) (userHome : String → Option String) (a : Args) :
    List String :=
  match a.path with
  | some ps => ps
  | none => [expanduser home userHome (dirname a.command)]

/-- Replace an empty path by `'.'` (the current working directory), as the
validation loop at src/rundogd.py lines 188-190 does entry-wise. -/
def replaceEmpty (p : String) : String := if p = "" then "." else p

/-- The validated, deduplicated watch paths (src/rundogd.py lines 186-193):
empty entries replaced by `'.'`, then duplicates removed (`set(paths)`,
determinised as `List.dedup`). -/
def validatedPaths (home : String) (userHome : String → Option String) (a : Args) :
    List String :=
  ((collectPaths home userHome a).map replaceEmpty).dedup

/-- The directory check (src/rundogd.py lines 196-199): the first path that is
not a directory is reported (via `print`, to stdout) and the program exits
with code 1. -/
def checkPaths (isDir : String → Bool) :
    List String → List (Stream × String) × Option Nat
  | [] => ([], none)
  | p :: ps =>
      if isDir p then checkPaths isDir ps
      else ([(Stream.stdout, p ++ " is not a directory.")], some 1)

/-- `exclude` extraction (src/rundogd.py lines 201-206): `None` unless
`args.exclude` is truthy; `set(...)` is modelled by `dedup`; an empty set
collapses back to `None`. -/
def excludeOf (a : Args) : Option (List String) :=
  match a.exclude with
  | none => none
  | some xs =>
      if xs ≠ [] then
        let e := xs.dedup
        if e = [] then none else some e
      else none

/-- `only` extraction (src/rundogd.py lines 208-213), same shape as
`excludeOf`. -/
def onlyOf (a : Args) : Option (List String) :=
  match a.only with
  | none => none
  | some xs =>
      if xs ≠ [] then
        let e := xs.dedup
        if e = [] then none else some e
      else none

/-- The `FilterSpec` with which `main` constructs the `ChangeHandler`
(src/rundogd.py lines 219-226). -/
def filterOf (a : Args) : FilterSpec :=
  { patterns := onlyOf a
    ignorePatterns := excludeOf a
    ignoreDirectories := a.excludeDir }

/-- `main` after argument parsing (src/rundogd.py lines 179-244), as a function
of: the environment (`home`, `userHome`, `isDir`), the OS behavior for the
initial `Runner` construction, the parsed arguments, the poll observations of
the driver loop, and whether a `KeyboardInterrupt` arrives during the loop.
Returns the stream-tagged printed lines and the program's exit code (`none`
when the loop is still running after the observed polls).  Watch registrations
(`observer.schedule` per validated path) are returned alongside. -/
def mainRun (home : String) (userHome : String → Option String)
    (isDir : String → Bool) (b : OSBehavior) (a : Args)
    (polls : List (Option Int)) (interrupted : Bool) :
    List (Stream × String) × Option Nat × List String :=
  let paths := validatedPaths home userHome a
  match checkPaths isDir paths with
  | (out, some code) => (out, some code, [])
  | (out, none) =>
      let r := Runner.init ([a.command] ++ a.args) a.stdout a.stderr initWorld b
      match r.exitCode with
      | some code => (out ++ r.out, some code, [])
      | none =>
          match loopRun a.persist polls, interrupted with
          | some _, _ =>
              (out ++ r.out ++ [(Stream.stdout, "\nrundogd is shutting down...")],
               some 0, paths)
          | none, true =>
              (out ++ r.out ++ [(Stream.stdout, "\nrundogd is shutting down...")],
               some 0, paths)
          | none, false => (out ++ r.out, none, paths)

/-! ## Lemmas about the Runner state machine -/

/-- The two branches of the `try/except OSError` in `terminate` produce the
same result, so the call reduces to a case split on the tracked process. -/
theorem terminate_eq (s : RunnerState) (w : FileWorld) (osOk : Bool) :
    Runner.terminate s w osOk =
      match s.process with
      | none => (s, w, [])
      | some p =>
          ({ s with process := none },
           { w with livePids := w.livePids.erase p.pid }, [Op.terminate p.pid]) := by
  rcases s with ⟨cmd, so, se, fo, fe, pr⟩
  cases osOk <;> cases pr <;> rfl

theorem pair_erase_erase (o e : ℕ) :
    ((({e, o} : Finset ℕ).erase o).erase e) = ∅ := by
  ext x
  simp only [Finset.mem_erase, Finset.mem_insert, Finset.mem_singleton,
    Finset.not_mem_empty, iff_false]
  tauto

/-- A successful `restart` never calls `sys.exit`. -/
theorem restart_exit (s : RunnerState) (w : FileWorld) (b : OSBehavior)
    (h1 : b.outOpenOk = true) (h2 : b.errOpenOk = true) (h3 : b.spawnOk = true) :
    (Runner.restart s w b).exitCode = none := by
  rcases s with ⟨cmd, so, se, fo, fe, pr⟩
  simp only [Runner.restart, terminate_eq, Runner.restartTry, FileWorld.openTrunc,
    FileWorld.closeFd, FileWorld.spawn, h1, h2, h3, if_true]
  cases pr <;> cases hso : truthyStr so <;> cases hse : truthyStr se <;>
    simp [hso, hse]

set_option maxHeartbeats 2000000 in
/-- A successful `restart` from an invariant-satisfying state re-establishes
the invariant. -/
theorem restart_inv (s : RunnerState) (w : FileWorld) (b : OSBehavior)
    (h1 : b.outOpenOk = true) (h2 : b.errOpenOk = true) (h3 : b.spawnOk = true)
    (hinv : RunnerInv s w) :
    RunnerInv (Runner.restart s w b).state (Runner.restart s w b).world := by
  obtain ⟨hfds, hop, hep, hne, hon, hen, hlive, hpid, hfp⟩ := hinv
  rcases s with ⟨cmd, so, se, fo, fe, pr⟩
  rcases fo with _ | o <;> rcases fe with _ | e <;>
    cases hso : truthyStr so <;> cases hse : truthyStr se <;>
    (try exact Option.noConfusion (hon hso)) <;>
    (try exact Option.noConfusion (hen hse)) <;>
    cases pr <;>
    simp only [Runner.restart, terminate_eq, Runner.restartTry, FileWorld.openTrunc,
      FileWorld.closeFd, FileWorld.spawn, hso, hse, h1, h2, h3, if_true, if_false,
      Bool.false_eq_true, reduceIte] <;>
    constructor <;>
    simp_all [trackedPids, handleFds, Nat.pos_iff_ne_zero, Finset.pair_comm,
      pair_erase_erase] <;>
    omega

set_option maxHeartbeats 2000000 in
/-- A successful `restart` preserves the configuration fields, tracks exactly
one freshly spawned process, and that process is the only live child. -/
theorem restart_state_eq (s : RunnerState) (w : FileWorld) (b : OSBehavior)
    (h1 : b.outOpenOk = true) (h2 : b.errOpenOk = true) (h3 : b.spawnOk = true)
    (hlive : w.livePids = trackedPids s)
    (hop : ∀ fd ∈ s.outfp, 0 < fd) (hep : ∀ fd ∈ s.errfp, 0 < fd) :
    ∃ pid, (Runner.restart s w b).state.command = s.command ∧
      (Runner.restart s w b).state.stdout = s.stdout ∧
      (Runner.restart s w b).state.stderr = s.stderr ∧
      (Runner.restart s w b).state.process = some ⟨pid, none⟩ ∧
      (Runner.restart s w b).world.livePids = {pid} ∧
      w.nextPid ≤ pid := by
  rcases s with ⟨cmd, so, se, fo, fe, pr⟩
  cases pr <;> cases hso : truthyStr so <;> cases hse : truthyStr se <;>
    rcases fo with _ | o <;> rcases fe with _ | e <;>
    simp_all [Runner.restart, terminate_eq, Runner.restartTry, FileWorld.openTrunc,
      FileWorld.closeFd, FileWorld.spawn, trackedPids, Nat.pos_iff_ne_zero]

set_option maxHeartbeats 2000000 in
/-- The descriptors a successful `restart` closes are exactly the handles the
runner held on entry (all positive, so the Python truthiness guard closes
them). -/
theorem restart_closedFds (s : RunnerState) (w : FileWorld) (b : OSBehavior)
    (h1 : b.outOpenOk = true) (h2 : b.errOpenOk = true) (h3 : b.spawnOk = true)
    (hop : ∀ fd ∈ s.outfp, 0 < fd) (hep : ∀ fd ∈ s.errfp, 0 < fd) :
    closedFds (Runner.restart s w b).ops = s.outfp.toList ++ s.errfp.toList := by
  rcases s with ⟨cmd, so, se, fo, fe, pr⟩
  cases pr <;> cases hso : truthyStr so <;> cases hse : truthyStr se <;>
    rcases fo with _ | o <;> rcases fe with _ | e <;>
    simp_all [Runner.restart, terminate_eq, Runner.restartTry, FileWorld.openTrunc,
      FileWorld.closeFd, FileWorld.spawn, closedFds, Nat.pos_iff_ne_zero]

set_option maxHeartbeats 2000000 in
/-- The trace of a successful `restart` only ever closes descriptors that are
open at that point: no double-close, no close of a foreign descriptor. -/
theorem restart_closesValid (s : RunnerState) (w : FileWorld) (b : OSBehavior)
    (h1 : b.outOpenOk = true) (h2 : b.errOpenOk = true) (h3 : b.spawnOk = true)
    (hinv : RunnerInv s w) :
    closesValid w.openFds (Runner.restart s w b).ops = true := by
  obtain ⟨hfds, hop, hep, hne, hon, hen, hlive, hpid, hfp⟩ := hinv
  rcases s with ⟨cmd, so, se, fo, fe, pr⟩
  rcases fo with _ | o <;> rcases fe with _ | e <;>
    cases hso : truthyStr so <;> cases hse : truthyStr se <;>
    (try exact Option.noConfusion (hon hso)) <;>
    (try exact Option.noConfusion (hen hse)) <;>
    cases pr <;>
    simp_all [Runner.restart, terminate_eq, Runner.restartTry, FileWorld.openTrunc,
      FileWorld.closeFd, FileWorld.spawn, closesValid, handleFds,
      Nat.pos_iff_ne_zero, Finset.mem_erase]

set_option maxHeartbeats 2000000 in
/-- The world's open-descriptor set moves in lockstep with the trace. -/
theorem restart_applyOps (s : RunnerState) (w : FileWorld) (b : OSBehavior)
    (h1 : b.outOpenOk = true) (h2 : b.errOpenOk = true) (h3 : b.spawnOk = true)
    (hop : ∀ fd ∈ s.outfp, 0 < fd) (hep : ∀ fd ∈ s.errfp, 0 < fd) :
    applyOps w.openFds (Runner.restart s w b).ops = (Runner.restart s w b).world.openFds := by
  rcases s with ⟨cmd, so, se, fo, fe, pr⟩
  cases pr <;> cases hso : truthyStr so <;> cases hse : truthyStr se <;>
    rcases fo with _ | o <;> rcases fe with _ | e <;>
    simp_all [Runner.restart, terminate_eq, Runner.restartTry, FileWorld.openTrunc,
      FileWorld.closeFd, FileWorld.spawn, applyOps, Nat.pos_iff_ne_zero]

set_option maxHeartbeats 2000000 in
/-- The operations of one successful `restart` occur in phase order: first the
terminate, then the closes, then the opens, then the spawn. -/
theorem restart_phase (s : RunnerState) (w : FileWorld) (b : OSBehavior)
    (h1 : b.outOpenOk = true) (h2 : b.errOpenOk = true) (h3 : b.spawnOk = true)
    (hinv : RunnerInv s w) :
    ((Runner.restart s w b).ops.map opPhase).Chain' (· ≤ ·) := by
  obtain ⟨hfds, hop, hep, hne, hon, hen, hlive, hpid, hfp⟩ := hinv
  rcases s with ⟨cmd, so, se, fo, fe, pr⟩
  rcases fo with _ | o <;> rcases fe with _ | e <;>
    cases hso : truthyStr so <;> cases hse : truthyStr se <;>
    (try exact Option.noConfusion (hon hso)) <;>
    (try exact Option.noConfusion (hen hse)) <;>
    cases pr <;>
    simp_all [Runner.restart, terminate_eq, Runner.restartTry, FileWorld.openTrunc,
      FileWorld.closeFd, FileWorld.spawn, opPhase, Nat.pos_iff_ne_zero,
      List.chain'_cons, List.chain'_singleton]

set_option maxHeartbeats 2000000 in
/-- The last operation of a successful `restart` is the spawn, and the spawn
receives exactly the runner's (new) stdout/stderr handles — `none` meaning the
child inherits the caller's stream. -/
theorem restart_spawn_last (s : RunnerState) (w : FileWorld) (b : OSBehavior)
    (h1 : b.outOpenOk = true) (h2 : b.errOpenOk = true) (h3 : b.spawnOk = true)
    (hop : ∀ fd ∈ s.outfp, 0 < fd) (hep : ∀ fd ∈ s.errfp, 0 < fd) :
    ∃ pid, (Runner.restart s w b).state.process = some ⟨pid, none⟩ ∧
      (Runner.restart s w b).ops.getLast? =
        some (Op.spawn pid (Runner.restart s w b).state.outfp
          (Runner.restart s w b).state.errfp) := by
  rcases s with ⟨cmd, so, se, fo, fe, pr⟩
  cases pr <;> cases hso : truthyStr so <;> cases hse : truthyStr se <;>
    rcases fo with _ | o <;> rcases fe with _ | e <;>
    simp_all [Runner.restart, terminate_eq, Runner.restartTry, FileWorld.openTrunc,
      FileWorld.closeFd, FileWorld.spawn, Nat.pos_iff_ne_zero]

theorem lookupFile_setFile (fs : List (String × Nat)) (q p : String) (n : Nat) :
    lookupFile (setFile fs q n) p = if q = p then some n else lookupFile fs p := by
  induction fs with
  | nil => by_cases h : q = p <;> simp [setFile, lookupFile, h]
  | cons f fs ih =>
      rcases f with ⟨q', m⟩
      by_cases h : q' = q <;> by_cases h' : q' = p <;> by_cases h'' : q = p <;>
        simp_all [setFile, lookupFile]

theorem applyOps_append (fds : Finset Nat) (xs ys : List Op) :
    applyOps fds (xs ++ ys) = applyOps (applyOps fds xs) ys := by
  induction xs generalizing fds with
  | nil => rfl
  | cons op xs ih => cases op <;> simp [applyOps, ih]

theorem closesValid_append (fds : Finset Nat) (xs ys : List Op) :
    closesValid fds (xs ++ ys) =
      (closesValid fds xs && closesValid (applyOps fds xs) ys) := by
  induction xs generalizing fds with
  | nil => simp [closesValid, applyOps]
  | cons op xs ih => cases op <;> simp [closesValid, applyOps, ih, Bool.and_assoc]

/-- `terminate` touches no file descriptors and no files. -/
theorem terminate_world_fds (s : RunnerState) (w : FileWorld) (osOk : Bool) :
    (Runner.terminate s w osOk).2.1.openFds = w.openFds ∧
    (Runner.terminate s w osOk).2.1.files = w.files := by
  rw [terminate_eq]
  cases s.process <;> simp

/-- `poll` touches no handle fields. -/
theorem poll_keeps_handles (s : RunnerState) (osOk : Bool) :
    (Runner.poll s osOk).2.outfp = s.outfp ∧ (Runner.poll s osOk).2.errfp = s.errfp := by
  unfold Runner.poll
  cases s.process <;> cases osOk <;> simp

set_option maxHeartbeats 1000000 in
/-- Whatever the OS behavior, a `restart` from a state holding a positive
stdout handle closes that handle. -/
theorem restart_close_mem (s : RunnerState) (w : FileWorld) (b : OSBehavior)
    (fd : Nat) (ho : s.outfp = some fd) (hpos : 0 < fd) :
    Op.close fd ∈ (Runner.restart s w b).ops := by
  have hne := Nat.pos_iff_ne_zero.mp hpos
  rcases s with ⟨cmd, so, se, fo, fe, pr⟩
  cases ho
  simp only [Runner.restart, terminate_eq]
  cases pr <;> rcases fe with _ | e <;>
    simp only [] <;> split <;>
    simp_all

set_option maxHeartbeats 1000000 in
/-- Whatever the OS behavior, a `restart` from a state holding a positive
stderr handle closes that handle. -/
theorem restart_close_mem_err (s : RunnerState) (w : FileWorld) (b : OSBehavior)
    (fd : Nat) (he : s.errfp = some fd) (hpos : 0 < fd) :
    Op.close fd ∈ (Runner.restart s w b).ops := by
  have hne := Nat.pos_iff_ne_zero.mp hpos
  rcases s with ⟨cmd, so, se, fo, fe, pr⟩
  cases he
  simp only [Runner.restart, terminate_eq]
  cases pr <;> rcases fo with _ | o <;>
    simp only [] <;> split <;> (try split) <;>
    simp_all

set_option maxHeartbeats 2000000 in
/-- With a nonempty stdout redirect path, a successful `restart` opens that
path write-only/create/truncate with mode 0644 into a fresh descriptor, keeps
the descriptor open, and leaves the file existing with size 0. -/
theorem restart_out_open (s : RunnerState) (w : FileWorld) (b : OSBehavior)
    (h1 : b.outOpenOk = true) (h2 : b.errOpenOk = true) (h3 : b.spawnOk = true)
    (hinv : RunnerInv s w) (path : String)
    (hso : s.stdout = some path) (hpne : path ≠ "") :
    ∃ fd, (Runner.restart s w b).state.outfp = some fd ∧
      Op.openFile path (O_WRONLY ||| O_CREAT ||| O_TRUNC) 0o644 fd ∈
        (Runner.restart s w b).ops ∧
      fd ∈ (Runner.restart s w b).world.openFds ∧
      lookupFile (Runner.restart s w b).world.files path = some 0 ∧
      w.nextFd ≤ fd := by
  obtain ⟨hfds, hop, hep, hne, hon, hen, hlive, hpid, hfp⟩ := hinv
  rcases s with ⟨cmd, so, se, fo, fe, pr⟩
  cases hso
  have hso' : truthyStr (some path) = true := by simp [truthyStr, hpne]
  rcases fo with _ | o <;> rcases fe with _ | e <;>
    cases hse : truthyStr se <;>
    (try exact Option.noConfusion (hen hse)) <;>
    cases pr <;>
    simp_all [Runner.restart, terminate_eq, Runner.restartTry, FileWorld.openTrunc,
      FileWorld.closeFd, FileWorld.spawn, lookupFile_setFile, Nat.pos_iff_ne_zero]

set_option maxHeartbeats 2000000 in
/-- With a nonempty stderr redirect path, a successful `restart` opens that
path write-only/create/truncate with mode 0644 into a fresh descriptor, keeps
the descriptor open, and leaves the file existing with size 0. -/
theorem restart_err_open (s : RunnerState) (w : FileWorld) (b : OSBehavior)
    (h1 : b.outOpenOk = true) (h2 : b.errOpenOk = true) (h3 : b.spawnOk = true)
    (hinv : RunnerInv s w) (path : String)
    (hse : s.stderr = some path) (hpne : path ≠ "") :
    ∃ fd, (Runner.restart s w b).state.errfp = some fd ∧
      Op.openFile path (O_WRONLY ||| O_CREAT ||| O_TRUNC) 0o644 fd ∈
        (Runner.restart s w b).ops ∧
      fd ∈ (Runner.restart s w b).world.openFds ∧
      lookupFile (Runner.restart s w b).world.files path = some 0 ∧
      w.nextFd ≤ fd := by
  obtain ⟨hfds, hop, hep, hne, hon, hen, hlive, hpid, hfp⟩ := hinv
  rcases s with ⟨cmd, so, se, fo, fe, pr⟩
  cases hse
  have hse' : truthyStr (some path) = true := by simp [truthyStr, hpne]
  rcases fo with _ | o <;> rcases fe with _ | e <;>
    cases hso : truthyStr so <;>
    (try exact Option.noConfusion (hon hso)) <;>
    cases pr <;>
    simp_all [Runner.restart, terminate_eq, Runner.restartTry, FileWorld.openTrunc,
      FileWorld.closeFd, FileWorld.spawn, lookupFile_setFile, Nat.pos_iff_ne_zero]

set_option maxHeartbeats 2000000 in
/-- After a successful `restart`, the previously held stdout descriptor is no
longer open: the new runner holds only fresh descriptors. -/
theorem restart_out_gone (s : RunnerState) (w : FileWorld) (b : OSBehavior)
    (h1 : b.outOpenOk = true) (h2 : b.errOpenOk = true) (h3 : b.spawnOk = true)
    (hinv : RunnerInv s w) (fd : Nat) (ho : s.outfp = some fd) :
    fd ∉ (Runner.restart s w b).world.openFds := by
  obtain ⟨hfds, hop, hep, hne, hon, hen, hlive, hpid, hfp⟩ := hinv
  rcases s with ⟨cmd, so, se, fo, fe, pr⟩
  cases ho
  cases hso : truthyStr so
  · exact Option.noConfusion (hon hso)
  · rcases fe with _ | e <;>
      cases hse : truthyStr se <;>
      (try exact Option.noConfusion (hen hse)) <;>
      cases pr <;>
      simp_all [Runner.restart, terminate_eq, Runner.restartTry, FileWorld.openTrunc,
        FileWorld.closeFd, FileWorld.spawn, handleFds, Nat.pos_iff_ne_zero,
        Finset.mem_erase] <;>
      omega

set_option maxHeartbeats 2000000 in
/-- After a successful `restart`, the previously held stderr descriptor is no
longer open. -/
theorem restart_err_gone (s : RunnerState) (w : FileWorld) (b : OSBehavior)
    (h1 : b.outOpenOk = true) (h2 : b.errOpenOk = true) (h3 : b.spawnOk = true)
    (hinv : RunnerInv s w) (fd : Nat) (he : s.errfp = some fd) :
    fd ∉ (Runner.restart s w b).world.openFds := by
  obtain ⟨hfds, hop, hep, hne, hon, hen, hlive, hpid, hfp⟩ := hinv
  rcases s with ⟨cmd, so, se, fo, fe, pr⟩
  cases he
  cases hse : truthyStr se
  · exact Option.noConfusion (hen hse)
  · rcases fo with _ | o <;>
      cases hso : truthyStr so <;>
      (try exact Option.noConfusion (hon hso)) <;>
      cases pr <;>
      simp_all [Runner.restart, terminate_eq, Runner.restartTry, FileWorld.openTrunc,
        FileWorld.closeFd, FileWorld.spawn, handleFds, Nat.pos_iff_ne_zero,
        Finset.mem_erase] <;>
      omega


theorem initRunnerInv (command : List String) (stdout stderr : Option String) :
    RunnerInv (initRunnerState command stdout stderr) initWorld := by
  constructor <;> simp [initRunnerState, initWorld, handleFds, trackedPids]

theorem restartSeq_props (bs : List OSBehavior) :
    ∀ (s : RunnerState) (w : FileWorld),
      (∀ b ∈ bs, b.outOpenOk = true ∧ b.errOpenOk = true ∧ b.spawnOk = true) →
      RunnerInv s w →
      (∀ r ∈ restartSeq s w bs,
          r.exitCode = none ∧
          r.state.process.isSome = true ∧
          r.world.livePids = trackedPids r.state ∧
          r.world.livePids.card = 1 ∧
          r.world.openFds = handleFds r.state ∧
          (r.ops.map opPhase).Chain' (· ≤ ·)) ∧
      closesValid w.openFds ((restartSeq s w bs).bind RestartOut.ops) = true ∧
      (restartSeq s w bs).Chain'
        (fun r1 r2 => closedFds r2.ops = r1.state.outfp.toList ++ r1.state.errfp.toList) ∧
      (∀ r ∈ (restartSeq s w bs).head?,
          closedFds r.ops = s.outfp.toList ++ s.errfp.toList) := by
  induction bs with
  | nil =>
      intro s w _ _
      refine ⟨?_, ?_, ?_, ?_⟩ <;> simp [restartSeq, closesValid]
  | cons b bs ih =>
      intro s w hbs hinv
      obtain ⟨hb1, hb2, hb3⟩ := hbs b (by simp)
      have hbs' : ∀ b' ∈ bs, b'.outOpenOk = true ∧ b'.errOpenOk = true ∧ b'.spawnOk = true :=
        fun b' hb' => hbs b' (by simp [hb'])
      have hinv' := restart_inv s w b hb1 hb2 hb3 hinv
      have hex := restart_exit s w b hb1 hb2 hb3
      obtain ⟨pid, hcmd, hso2, hse2, hproc, hlp, hpd⟩ :=
        restart_state_eq s w b hb1 hb2 hb3 hinv.live
          (fun fd h => (hinv.outPos fd h).1) (fun fd h => (hinv.errPos fd h).1)
      obtain ⟨IH1, IH2, IH3, IH4⟩ := ih (Runner.restart s w b).state (Runner.restart s w b).world hbs' hinv'
      have hseq : restartSeq s w (b :: bs) =
          Runner.restart s w b ::
            restartSeq (Runner.restart s w b).state (Runner.restart s w b).world bs := rfl
      refine ⟨?_, ?_, ?_, ?_⟩
      · intro r' hr'
        rw [hseq, List.mem_cons] at hr'
        rcases hr' with hr' | hr'
        · subst hr'
          refine ⟨hex, ?_, hinv'.live, ?_, hinv'.fds, restart_phase s w b hb1 hb2 hb3 hinv⟩
          · rw [hproc]; rfl
          · rw [hlp]; simp
        · exact IH1 r' hr'
      · rw [hseq]
        have hb : (Runner.restart s w b :: restartSeq (Runner.restart s w b).state (Runner.restart s w b).world bs).bind RestartOut.ops = (Runner.restart s w b).ops ++ (restartSeq (Runner.restart s w b).state (Runner.restart s w b).world bs).bind RestartOut.ops := rfl
        rw [hb]
        rw [closesValid_append]
        rw [restart_applyOps s w b hb1 hb2 hb3
          (fun fd h => (hinv.outPos fd h).1) (fun fd h => (hinv.errPos fd h).1)]
        rw [restart_closesValid s w b hb1 hb2 hb3 hinv, IH2]
        rfl
      · rw [hseq]
        rw [List.chain'_cons']
        exact ⟨IH4, IH3⟩
      · rw [hseq]
        intro r' hr'
        simp only [List.head?_cons, Option.mem_some_iff] at hr'
        subst hr'
        exact restart_closedFds s w b hb1 hb2 hb3
          (fun fd h => (hinv.outPos fd h).1) (fun fd h => (hinv.errPos fd h).1)


/-- If a timer with deadline `d` is pending and every event arrives before the
previous deadline, only the final timer fires. -/
theorem debounceFires_pending (wait : ℚ) :
    ∀ (es : List ℚ) (d : ℚ) (hne : es ≠ []),
      (∀ x ∈ es.head?, x < d) →
      es.Chain' (fun a b => b < a + wait) →
      debounceFires wait es (some d) = [es.getLast hne + wait]
  | [], _, hne, _, _ => absurd rfl hne
  | [e], d, _, hd, _ => by
      have he : e < d := hd e (by simp)
      simp [debounceFires, not_le.mpr he]
  | e :: e' :: ts, d, _, hd, hch => by
      have he : e < d := hd e (by simp)
      have he' : e' < e + wait := (List.chain'_cons.mp hch).1
      have ih := debounceFires_pending wait (e' :: ts) (e + wait) (by simp)
        (by simp [he']) (List.chain'_cons.mp hch).2
      have step : debounceFires wait (e :: e' :: ts) (some d) =
          if d ≤ e then d :: debounceFires wait (e' :: ts) (some (e + wait))
          else debounceFires wait (e' :: ts) (some (e + wait)) := rfl
      rw [step, if_neg (not_le.mpr he), ih]
      simp [List.getLast_cons]

/-- C1: for every burst of qualifying events whose inter-arrival gaps are all
smaller than `wait`, exactly one restart fires, `wait` seconds after the last
event of the burst; and each `on_any_event` call replaces the pending timer
with a fresh one firing `wait` seconds from now (sliding window). -/
theorem claim_C1 (wait : ℚ) (es : List ℚ) (hne : es ≠ [])
    (hch : es.Chain' (fun a b => a ≤ b ∧ b < a + wait)) :
    debounceFires wait es none = [es.getLast hne + wait] ∧
    ∀ (h : HandlerState) (now : ℚ),
      (ChangeHandler.onAnyEvent h now).timer = some (now + h.wait) := by
  constructor
  · have hch2 : es.Chain' (fun a b => b < a + wait) :=
      List.Chain'.imp (fun a b h => h.2) hch
    match es, hne with
    | [e], _ => simp [debounceFires]
    | e :: e' :: ts, _ =>
        have step : debounceFires wait (e :: e' :: ts) none =
            debounceFires wait (e' :: ts) (some (e + wait)) := rfl
        have he' : e' < e + wait := (List.chain'_cons.mp hch2).1
        rw [step, debounceFires_pending wait (e' :: ts) (e + wait) (by simp)
          (by simp [he']) (List.chain'_cons.mp hch2).2]
        simp [List.getLast_cons]
  · intro h now
    rfl

/-- Witness for C1 at the spec's scenario: wait = 0.5 and events at
t = 0, 0.2, 0.4 produce exactly one restart, at t = 0.9. -/
theorem claim_C1_witness :
    debounceFires (1/2 : ℚ) [0, 1/5, 2/5] none = [9/10] := by
  have h := (claim_C1 (1/2) [0, 1/5, 2/5] (by simp)
    (by norm_num [List.chain'_cons])).1
  rw [h]
  norm_num

/-- C3: poll returns the exit code once the child has terminated, and none
both while it runs and when no process is tracked; an OS error makes poll
return none, clears the handle, and every later poll reports no process. -/
theorem claim_C3 (s : RunnerState) :
    (s.process = none → ∀ osOk, Runner.poll s osOk = (none, s)) ∧
    (∀ p, s.process = some p → ∀ c, p.status = some c →
      Runner.poll s true = (some c, s)) ∧
    (∀ p, s.process = some p → p.status = none →
      Runner.poll s true = (none, s)) ∧
    (∀ p, s.process = some p →
      Runner.poll s false = (none, { s with process := none }) ∧
      (Runner.poll s false).2.process = none ∧
      ∀ osOk, Runner.poll (Runner.poll s false).2 osOk =
        (none, (Runner.poll s false).2)) := by
  rcases s with ⟨cmd, so, se, fo, fe, pr⟩
  cases pr <;> simp [Runner.poll]

/-- Witness for C3: a terminated child reports its exit code; an OS error
clears the handle and later polls report no process. -/
theorem claim_C3_witness :
    Runner.poll (⟨["c"], none, none, none, none, some ⟨1, some 0⟩⟩ : RunnerState) true =
      (some 0, ⟨["c"], none, none, none, none, some ⟨1, some 0⟩⟩) ∧
    Runner.poll (⟨["c"], none, none, none, none, some ⟨1, none⟩⟩ : RunnerState) true =
      (none, ⟨["c"], none, none, none, none, some ⟨1, none⟩⟩) ∧
    Runner.poll (⟨["c"], none, none, none, none, some ⟨1, none⟩⟩ : RunnerState) false =
      (none, ⟨["c"], none, none, none, none, none⟩) ∧
    Runner.poll (⟨["c"], none, none, none, none, none⟩ : RunnerState) true =
      (none, ⟨["c"], none, none, none, none, none⟩) := by
  refine ⟨(claim_C3 _).2.1 _ rfl 0 rfl, (claim_C3 _).2.2.1 _ rfl rfl,
    ((claim_C3 _).2.2.2 _ rfl).1, (claim_C3 _).1 rfl true⟩

/-- C4: terminate on a supervisor with no tracked process is a no-op; OS
errors while signaling are swallowed (the result does not depend on them);
afterwards no process is tracked. -/
theorem claim_C4 (s : RunnerState) (w : FileWorld) (osOk : Bool) :
    (s.process = none → Runner.terminate s w osOk = (s, w, [])) ∧
    (Runner.terminate s w osOk).1.process = none ∧
    Runner.terminate s w osOk = Runner.terminate s w true := by
  rcases s with ⟨cmd, so, se, fo, fe, pr⟩
  cases pr <;> cases osOk <;> simp [Runner.terminate, procTerminateWait]

/-- Witness for C4: the no-op case at a concrete supervisor state. -/
theorem claim_C4_witness :
    Runner.terminate (⟨["c"], none, none, none, none, none⟩ : RunnerState)
      initWorld false =
      ((⟨["c"], none, none, none, none, none⟩ : RunnerState), initWorld, []) ∧
    (Runner.terminate (⟨["c"], none, none, none, none, some ⟨1, none⟩⟩ : RunnerState)
      initWorld false).1.process = none :=
  ⟨(claim_C4 _ initWorld false).1 rfl, (claim_C4 _ initWorld false).2.1⟩

/-- C7: with persist off, the driver loop breaks exactly at the first tick
whose poll observes a present exit status (shutdown begins within that same
one-second poll interval); with persist on it never breaks, whatever the
polls observe. -/
theorem claim_C7 (polls : List (Option Int)) :
    loopRun false polls = polls.findIdx? Option.isSome ∧
    loopRun true polls = none := by
  constructor
  · induction polls with
    | nil => rfl
    | cons p ps ih =>
        by_cases hp : p.isSome <;>
          simp [loopRun, List.findIdx?_cons, List.findIdx?_succ, hp, ih,
            Nat.succ_eq_add_one]
  · induction polls with
    | nil => rfl
    | cons p ps ih => simp [loopRun, ih]


theorem replaceEmpty_ne_empty (p : String) : replaceEmpty p ≠ "" := by
  unfold replaceEmpty
  split <;> simp_all

/-- C6: an event that fails the `only` patterns (when set), matches an
`exclude` pattern, or hits the directory exclusion never reaches
`on_any_event`: it does not qualify and the debounce state is left unchanged,
so no restart is scheduled for it. -/
theorem claim_C6 (a : Args) (wait : ℚ) (timer : Option ℚ) (now : ℚ) (e : FsEvent) :
    (∀ pats, onlyOf a = some pats → matchAny pats (eventPaths e) = false →
      eventQualifies (filterOf a) e = false ∧
      ChangeHandler.dispatch ⟨filterOf a, wait, timer⟩ now e =
        ⟨filterOf a, wait, timer⟩) ∧
    (∀ pats, excludeOf a = some pats → matchAny pats (eventPaths e) = true →
      eventQualifies (filterOf a) e = false ∧
      ChangeHandler.dispatch ⟨filterOf a, wait, timer⟩ now e =
        ⟨filterOf a, wait, timer⟩) ∧
    (a.excludeDir = true → e.isDirectory = true →
      eventQualifies (filterOf a) e = false ∧
      ChangeHandler.dispatch ⟨filterOf a, wait, timer⟩ now e =
        ⟨filterOf a, wait, timer⟩) := by
  have hd : ∀ f : FilterSpec, eventQualifies f e = false →
      ChangeHandler.dispatch ⟨f, wait, timer⟩ now e = ⟨f, wait, timer⟩ := by
    intro f hq
    simp [ChangeHandler.dispatch, hq]
  refine ⟨?_, ?_, ?_⟩
  · intro pats hpat hmatch
    have hq : eventQualifies (filterOf a) e = false := by
      simp only [eventQualifies, filterOf, hpat]
      split
      · rfl
      · split
        · rfl
        · simp [hmatch]
    exact ⟨hq, hd _ hq⟩
  · intro pats hpat hmatch
    have hq : eventQualifies (filterOf a) e = false := by
      simp only [eventQualifies, filterOf, hpat]
      split
      · rfl
      · simp [hmatch]
    exact ⟨hq, hd _ hq⟩
  · intro hdir hisdir
    have hq : eventQualifies (filterOf a) e = false := by
      simp [eventQualifies, filterOf, hdir, hisdir]
    exact ⟨hq, hd _ hq⟩

/-- Witness for C6 at the spec's scenario (--only *.py with an event for
foo.txt) plus an exclude hit and a directory hit: in each case the handler
state is unchanged. -/
theorem claim_C6_witness :
    ChangeHandler.dispatch
        ⟨filterOf ⟨none, false, none, false, some ["*.py"], 1/2, none, none, "c", []⟩,
         1/2, none⟩ 0 ⟨false, "foo.txt", none⟩ =
      ⟨filterOf ⟨none, false, none, false, some ["*.py"], 1/2, none, none, "c", []⟩,
       1/2, none⟩ ∧
    ChangeHandler.dispatch
        ⟨filterOf ⟨none, false, some ["*.log"], false, none, 1/2, none, none, "c", []⟩,
         1/2, none⟩ 0 ⟨false, "foo.log", none⟩ =
      ⟨filterOf ⟨none, false, some ["*.log"], false, none, 1/2, none, none, "c", []⟩,
       1/2, none⟩ ∧
    ChangeHandler.dispatch
        ⟨filterOf ⟨none, false, none, true, none, 1/2, none, none, "c", []⟩,
         1/2, none⟩ 0 ⟨true, "somedir", none⟩ =
      ⟨filterOf ⟨none, false, none, true, none, 1/2, none, none, "c", []⟩,
       1/2, none⟩ :=
  ⟨((claim_C6 ⟨none, false, none, false, some ["*.py"], 1/2, none, none, "c", []⟩
      (1/2) none 0 ⟨false, "foo.txt", none⟩).1 ["*.py"] (by decide) (by decide)).2,
   ((claim_C6 ⟨none, false, some ["*.log"], false, none, 1/2, none, none, "c", []⟩
      (1/2) none 0 ⟨false, "foo.log", none⟩).2.1 ["*.log"] (by decide) (by decide)).2,
   ((claim_C6 ⟨none, false, none, true, none, 1/2, none, none, "c", []⟩
      (1/2) none 0 ⟨true, "somedir", none⟩).2.2 rfl rfl).2⟩


/-- C8: with --path arguments given, every empty path string is replaced by
'.' (the current working directory) before the list is deduplicated; the
resulting watch list has no duplicates and no empty entry, and contains
exactly the replaced paths — so path strings naming the same directory
produce a single watch registration. -/
theorem claim_C8 (home : String) (uh : String → Option String) (a : Args)
    (ps : List String) (hp : a.path = some ps) :
    validatedPaths home uh a = (ps.map replaceEmpty).dedup ∧
    (validatedPaths home uh a).Nodup ∧
    "" ∉ validatedPaths home uh a ∧
    (∀ q, q ∈ validatedPaths home uh a ↔ ∃ p ∈ ps, replaceEmpty p = q) ∧
    ∀ q, (validatedPaths home uh a).count q ≤ 1 := by
  have h1 : validatedPaths home uh a = (ps.map replaceEmpty).dedup := by
    simp [validatedPaths, collectPaths, hp]
  have hnd : (validatedPaths home uh a).Nodup := by
    rw [h1]; exact List.nodup_dedup _
  refine ⟨h1, hnd, ?_, ?_, ?_⟩
  · rw [h1]
    intro hmem
    rw [List.mem_dedup, List.mem_map] at hmem
    obtain ⟨p, _, hrep⟩ := hmem
    exact replaceEmpty_ne_empty p hrep
  · intro q
    rw [h1, List.mem_dedup, List.mem_map]
  · intro q
    exact List.nodup_iff_count_le_one.mp hnd q

/-- Witness for C8: the paths "" and "." collapse to the single registration
".". -/
theorem claim_C8_witness :
    validatedPaths "/root" (fun _ => none)
        ⟨some ["", "."], false, none, false, none, 1/2, none, none, "c", []⟩ = ["."] ∧
    "." ∈ validatedPaths "/root" (fun _ => none)
        ⟨some ["", "."], false, none, false, none, 1/2, none, none, "c", []⟩ := by
  have h := claim_C8 "/root" (fun _ => none)
    ⟨some ["", "."], false, none, false, none, 1/2, none, none, "c", []⟩ ["", "."] rfl
  refine ⟨?_, ?_⟩
  · rw [h.1]; rfl
  · exact (h.2.2.2.1 ".").mpr ⟨"", by simp, rfl⟩

/-- C10: with no --path argument the single watch path is the command's
directory component with a leading tilde user-expanded; an empty directory
component (a bare command name) yields the current working directory '.'. -/
theorem claim_C10 (home : String) (uh : String → Option String) (a : Args)
    (hp : a.path = none) :
    validatedPaths home uh a =
      [replaceEmpty (expanduser home uh (dirname a.command))] ∧
    (dirname a.command = "" → validatedPaths home uh a = ["."]) ∧
    (validatedPaths home uh a).length = 1 := by
  have h1 : validatedPaths home uh a =
      [replaceEmpty (expanduser home uh (dirname a.command))] := by
    simp [validatedPaths, collectPaths, hp]
  refine ⟨h1, ?_, by rw [h1]; rfl⟩
  intro h0
  rw [h1, h0]
  rfl

/-- Witness for C10: command "bin/tool" watches "bin"; a bare command "tool"
watches ".". -/
theorem claim_C10_witness :
    validatedPaths "/home/u" (fun _ => none)
        ⟨none, false, none, false, none, 1/2, none, none, "bin/tool", []⟩ = ["bin"] ∧
    validatedPaths "/home/u" (fun _ => none)
        ⟨none, false, none, false, none, 1/2, none, none, "tool", []⟩ = ["."] := by
  constructor
  · rw [(claim_C10 "/home/u" (fun _ => none)
      ⟨none, false, none, false, none, 1/2, none, none, "bin/tool", []⟩ rfl).1]
    decide
  · exact (claim_C10 "/home/u" (fun _ => none)
      ⟨none, false, none, false, none, 1/2, none, none, "tool", []⟩ rfl).2.1 (by decide)


/-- If some watch path is not a directory, the validation loop reports the
first such path on stdout and exits with code 1. -/
theorem checkPaths_fail (isDir : String → Bool) :
    ∀ paths : List String, (∃ p ∈ paths, isDir p = false) →
      ∃ q, isDir q = false ∧
        checkPaths isDir paths =
          ([(Stream.stdout, q ++ " is not a directory.")], some 1)
  | [], h => by simp at h
  | p :: ps, h => by
      by_cases hp : isDir p
      · have hps : ∃ q ∈ ps, isDir q = false := by
          rcases h with ⟨q, hq, hqd⟩
          rcases List.mem_cons.mp hq with rfl | hq'
          · exact absurd hp (by simp [hqd])
          · exact ⟨q, hq', hqd⟩
        obtain ⟨q, hqd, heq⟩ := checkPaths_fail isDir ps hps
        exact ⟨q, hqd, by simp [checkPaths, hp, heq]⟩
      · exact ⟨p, by simpa using hp, by simp [checkPaths, hp]⟩

/-- If every watch path is a directory, validation passes silently. -/
theorem checkPaths_ok (isDir : String → Bool) :
    ∀ paths : List String, (∀ p ∈ paths, isDir p = true) →
      checkPaths isDir paths = ([], none)
  | [], _ => rfl
  | p :: ps, h => by
      have hp : isDir p = true := h p (by simp)
      have := checkPaths_ok isDir ps (fun q hq => h q (by simp [hq]))
      simp [checkPaths, hp, this]

set_option maxHeartbeats 1000000 in
/-- If the child cannot be spawned, the initial construction prints the echo
line and the failure diagnostic (both on stdout) and exits with code 1. -/
theorem init_spawn_fail (cmd : List String) (so se : Option String)
    (w : FileWorld) (b : OSBehavior)
    (h1 : b.outOpenOk = true) (h2 : b.errOpenOk = true) (h3 : b.spawnOk = false) :
    (Runner.init cmd so se w b).exitCode = some 1 ∧
    (Runner.init cmd so se w b).out =
      [(Stream.stdout, "$ " ++ String.intercalate " " cmd),
       (Stream.stdout, "Failed to start process: OSError")] := by
  unfold Runner.init initRunnerState
  cases hso : truthyStr so <;> cases hse : truthyStr se <;>
    simp [Runner.restart, terminate_eq, Runner.restartTry, FileWorld.openTrunc,
      FileWorld.closeFd, FileWorld.spawn, hso, hse, h1, h2, h3]

set_option maxHeartbeats 1000000 in
/-- C5 as amended: every fatal startup error — a watch path that is not a
directory, or a child that cannot be spawned — prints a one-line diagnostic
to the standard OUTPUT stream and exits with code 1; clean shutdown (child
exit observed with persist off, or a keyboard interrupt) exits with code 0. -/
theorem claim_C5_amended (home : String) (uh : String → Option String)
    (isDir : String → Bool) (b : OSBehavior) (a : Args)
    (polls : List (Option Int)) (intr : Bool) :
    ((∃ p ∈ validatedPaths home uh a, isDir p = false) →
      (mainRun home uh isDir b a polls intr).2.1 = some 1 ∧
      (mainRun home uh isDir b a polls intr).1.length = 1 ∧
      ∀ l ∈ (mainRun home uh isDir b a polls intr).1, l.1 = Stream.stdout) ∧
    ((∀ p ∈ validatedPaths home uh a, isDir p = true) →
      b.outOpenOk = true → b.errOpenOk = true → b.spawnOk = false →
      (mainRun home uh isDir b a polls intr).2.1 = some 1 ∧
      (mainRun home uh isDir b a polls intr).1.getLast? =
        some (Stream.stdout, "Failed to start process: OSError") ∧
      ∀ l ∈ (mainRun home uh isDir b a polls intr).1, l.1 = Stream.stdout) ∧
    ((∀ p ∈ validatedPaths home uh a, isDir p = true) →
      b.outOpenOk = true → b.errOpenOk = true → b.spawnOk = true →
      ((loopRun a.persist polls).isSome ∨ intr = true) →
      (mainRun home uh isDir b a polls intr).2.1 = some 0) := by
  refine ⟨?_, ?_, ?_⟩
  · intro hbad
    obtain ⟨q, hqd, heq⟩ := checkPaths_fail isDir _ hbad
    simp [mainRun, heq]
  · intro hgood h1 h2 h3
    have hcp := checkPaths_ok isDir _ hgood
    obtain ⟨hex, hout⟩ :=
      init_spawn_fail ([a.command] ++ a.args) a.stdout a.stderr initWorld b h1 h2 h3
    simp only [List.singleton_append] at hex hout
    simp [mainRun, hcp, hex, hout]
  · intro hgood h1 h2 h3 hloop
    have hcp := checkPaths_ok isDir _ hgood
    have hex := restart_exit
      (initRunnerState ([a.command] ++ a.args) a.stdout a.stderr) initWorld b h1 h2 h3
    simp only [List.singleton_append] at hex
    rcases hloop with hk | hintr
    · obtain ⟨k, hk⟩ := Option.isSome_iff_exists.mp hk
      simp [mainRun, hcp, Runner.init, hex, hk]
    · cases hlr : loopRun a.persist polls <;>
        simp [mainRun, hcp, Runner.init, hex, hlr, hintr]


/-- C5 counterexample: with watch path "x" not a directory, the program exits
with code 1 but the diagnostic goes to stdout; nothing at all is printed to
the standard error stream, contradicting the claim as stated. -/
theorem claim_C5_counterexample :
    (mainRun "/root" (fun _ => none) (fun _ => false) ⟨true, true, true, true⟩
        ⟨some ["x"], false, none, false, none, 1/2, none, none, "c", []⟩ [] false).2.1 =
      some 1 ∧
    (mainRun "/root" (fun _ => none) (fun _ => false) ⟨true, true, true, true⟩
        ⟨some ["x"], false, none, false, none, 1/2, none, none, "c", []⟩ [] false).1 =
      [(Stream.stdout, "x is not a directory.")] ∧
    ¬ ∃ l ∈ (mainRun "/root" (fun _ => none) (fun _ => false) ⟨true, true, true, true⟩
        ⟨some ["x"], false, none, false, none, 1/2, none, none, "c", []⟩ [] false).1,
      l.1 = Stream.stderr := by
  refine ⟨by decide, by decide, ?_⟩
  decide

/-- Witness for the amended C5: a bad path exits 1 with a one-line stdout
diagnostic; a spawn failure exits 1 with the stdout diagnostic last; a child
exit observed with persist off shuts down with exit code 0. -/
theorem claim_C5_witness :
    (mainRun "/root" (fun _ => none) (fun _ => false) ⟨true, true, true, true⟩
        ⟨some ["x"], false, none, false, none, 1/2, none, none, "c", []⟩ [] false).2.1 =
      some 1 ∧
    (mainRun "/root" (fun _ => none) (fun _ => true) ⟨true, true, true, false⟩
        ⟨some ["x"], false, none, false, none, 1/2, none, none, "c", []⟩ [] false).2.1 =
      some 1 ∧
    (mainRun "/root" (fun _ => none) (fun _ => true) ⟨true, true, true, false⟩
        ⟨some ["x"], false, none, false, none, 1/2, none, none, "c", []⟩ [] false).1.getLast? =
      some (Stream.stdout, "Failed to start process: OSError") ∧
    (mainRun "/root" (fun _ => none) (fun _ => true) ⟨true, true, true, true⟩
        ⟨some ["x"], false, none, false, none, 1/2, none, none, "c", []⟩ [some 0] false).2.1 =
      some 0 := by
  refine ⟨((claim_C5_amended "/root" (fun _ => none) (fun _ => false)
      ⟨true, true, true, true⟩
      ⟨some ["x"], false, none, false, none, 1/2, none, none, "c", []⟩ [] false).1
      ⟨"x", by decide, rfl⟩).1, ?_, ?_, ?_⟩
  · exact ((claim_C5_amended "/root" (fun _ => none) (fun _ => true)
      ⟨true, true, true, false⟩
      ⟨some ["x"], false, none, false, none, 1/2, none, none, "c", []⟩ [] false).2.1
      (fun p _ => rfl) rfl rfl rfl).1
  · exact ((claim_C5_amended "/root" (fun _ => none) (fun _ => true)
      ⟨true, true, true, false⟩
      ⟨some ["x"], false, none, false, none, 1/2, none, none, "c", []⟩ [] false).2.1
      (fun p _ => rfl) rfl rfl rfl).2.1
  · exact (claim_C5_amended "/root" (fun _ => none) (fun _ => true)
      ⟨true, true, true, true⟩
      ⟨some ["x"], false, none, false, none, 1/2, none, none, "c", []⟩ [some 0] false).2.2
      (fun p _ => rfl) rfl rfl rfl (Or.inl (by decide))



set_option maxHeartbeats 1000000 in
/-- C9: with a nonempty redirect path, every (re)start opens the target
write-only, creating it if missing and truncating it if present (mode 0644);
the descriptor stays open — poll and terminate never close it — until the
next restart closes it, after which it is no longer open; with no redirect
path set, the runner keeps no handle and the child is spawned inheriting the
caller's stream (the spawn receives `none`). -/
theorem claim_C9 (s : RunnerState) (w : FileWorld) (b : OSBehavior)
    (h1 : b.outOpenOk = true) (h2 : b.errOpenOk = true) (h3 : b.spawnOk = true)
    (hinv : RunnerInv s w) :
    (∀ path, s.stdout = some path → path ≠ "" →
      ∃ fd, (Runner.restart s w b).state.outfp = some fd ∧
        Op.openFile path (O_WRONLY ||| O_CREAT ||| O_TRUNC) 0o644 fd ∈
          (Runner.restart s w b).ops ∧
        fd ∈ (Runner.restart s w b).world.openFds ∧
        lookupFile (Runner.restart s w b).world.files path = some 0 ∧
        (∀ osOk, (Runner.terminate (Runner.restart s w b).state
            (Runner.restart s w b).world osOk).2.1.openFds =
          (Runner.restart s w b).world.openFds) ∧
        (∀ b', Op.close fd ∈
          (Runner.restart (Runner.restart s w b).state
            (Runner.restart s w b).world b').ops) ∧
        (∀ b', b'.outOpenOk = true → b'.errOpenOk = true → b'.spawnOk = true →
          fd ∉ (Runner.restart (Runner.restart s w b).state
            (Runner.restart s w b).world b').world.openFds)) ∧
    (∀ path, s.stderr = some path → path ≠ "" →
      ∃ fd, (Runner.restart s w b).state.errfp = some fd ∧
        Op.openFile path (O_WRONLY ||| O_CREAT ||| O_TRUNC) 0o644 fd ∈
          (Runner.restart s w b).ops ∧
        fd ∈ (Runner.restart s w b).world.openFds ∧
        lookupFile (Runner.restart s w b).world.files path = some 0 ∧
        (∀ b', Op.close fd ∈
          (Runner.restart (Runner.restart s w b).state
            (Runner.restart s w b).world b').ops) ∧
        (∀ b', b'.outOpenOk = true → b'.errOpenOk = true → b'.spawnOk = true →
          fd ∉ (Runner.restart (Runner.restart s w b).state
            (Runner.restart s w b).world b').world.openFds)) ∧
    (truthyStr s.stdout = false →
      (Runner.restart s w b).state.outfp = none ∧
      ∃ pid, (Runner.restart s w b).ops.getLast? =
        some (Op.spawn pid none (Runner.restart s w b).state.errfp)) ∧
    (truthyStr s.stderr = false →
      (Runner.restart s w b).state.errfp = none ∧
      ∃ pid, (Runner.restart s w b).ops.getLast? =
        some (Op.spawn pid (Runner.restart s w b).state.outfp none)) := by
  have hop : ∀ fd ∈ s.outfp, 0 < fd := fun fd h => (hinv.outPos fd h).1
  have hep : ∀ fd ∈ s.errfp, 0 < fd := fun fd h => (hinv.errPos fd h).1
  have hinv' := restart_inv s w b h1 h2 h3 hinv
  obtain ⟨pid0, hcmd, hso2, hse2, hproc, hlp, hpd⟩ :=
    restart_state_eq s w b h1 h2 h3 hinv.live hop hep
  refine ⟨?_, ?_, ?_, ?_⟩
  · intro path hpath hpne
    obtain ⟨fd, hofd, hmem, hopen, hfile, hfresh⟩ :=
      restart_out_open s w b h1 h2 h3 hinv path hpath hpne
    have hfdpos : 0 < fd :=
      (hinv'.outPos fd (by rw [hofd]; rfl)).1
    refine ⟨fd, hofd, hmem, hopen, hfile, ?_, ?_, ?_⟩
    · intro osOk
      exact (terminate_world_fds (Runner.restart s w b).state
        (Runner.restart s w b).world osOk).1
    · intro b'
      exact restart_close_mem (Runner.restart s w b).state
        (Runner.restart s w b).world b' fd hofd hfdpos
    · intro b' hb1 hb2 hb3
      exact restart_out_gone (Runner.restart s w b).state
        (Runner.restart s w b).world b' hb1 hb2 hb3 hinv' fd hofd
  · intro path hpath hpne
    obtain ⟨fd, hofd, hmem, hopen, hfile, hfresh⟩ :=
      restart_err_open s w b h1 h2 h3 hinv path hpath hpne
    have hfdpos : 0 < fd :=
      (hinv'.errPos fd (by rw [hofd]; rfl)).1
    refine ⟨fd, hofd, hmem, hopen, hfile, ?_, ?_⟩
    · intro b'
      exact restart_close_mem_err (Runner.restart s w b).state
        (Runner.restart s w b).world b' fd hofd hfdpos
    · intro b' hb1 hb2 hb3
      exact restart_err_gone (Runner.restart s w b).state
        (Runner.restart s w b).world b' hb1 hb2 hb3 hinv' fd hofd
  · intro hfalse
    have hnone : (Runner.restart s w b).state.outfp = none :=
      hinv'.outNone (by rw [hso2]; exact hfalse)
    obtain ⟨pid, hpr, hlast⟩ := restart_spawn_last s w b h1 h2 h3 hop hep
    exact ⟨hnone, pid, by rw [hlast, hnone]⟩
  · intro hfalse
    have hnone : (Runner.restart s w b).state.errfp = none :=
      hinv'.errNone (by rw [hse2]; exact hfalse)
    obtain ⟨pid, hpr, hlast⟩ := restart_spawn_last s w b h1 h2 h3 hop hep
    exact ⟨hnone, pid, by rw [hlast, hnone]⟩




/-- Witness for C9: first start with stdout redirected to "o" and stderr
inherited: the open uses the truncating flags, the descriptor stays in the
open set, the file exists with size 0, any later restart closes the
descriptor, and the spawn's stderr handle is none (inherited). -/
theorem claim_C9_witness :
    (∃ fd, (Runner.restart (initRunnerState ["c"] (some "o") none) initWorld
        ⟨true, true, true, true⟩).state.outfp = some fd ∧
      Op.openFile "o" (O_WRONLY ||| O_CREAT ||| O_TRUNC) 0o644 fd ∈
        (Runner.restart (initRunnerState ["c"] (some "o") none) initWorld
          ⟨true, true, true, true⟩).ops ∧
      fd ∈ (Runner.restart (initRunnerState ["c"] (some "o") none) initWorld
          ⟨true, true, true, true⟩).world.openFds ∧
      lookupFile (Runner.restart (initRunnerState ["c"] (some "o") none) initWorld
          ⟨true, true, true, true⟩).world.files "o" = some 0 ∧
      ∀ b', Op.close fd ∈
        (Runner.restart
          (Runner.restart (initRunnerState ["c"] (some "o") none) initWorld
            ⟨true, true, true, true⟩).state
          (Runner.restart (initRunnerState ["c"] (some "o") none) initWorld
            ⟨true, true, true, true⟩).world b').ops) ∧
    (Runner.restart (initRunnerState ["c"] (some "o") none) initWorld
        ⟨true, true, true, true⟩).state.errfp = none := by
  have h := claim_C9 (initRunnerState ["c"] (some "o") none) initWorld
    ⟨true, true, true, true⟩ rfl rfl rfl (initRunnerInv _ _ _)
  obtain ⟨fd, ha, hb, hc, hd, _, hf, _⟩ := h.1 "o" rfl (by decide)
  exact ⟨⟨fd, ha, hb, hc, hd, hf⟩, (h.2.2.2 rfl).1⟩

/-- C2: over any number of successive restart calls (the construction-time
one included), every call succeeds without exiting; after each call exactly
one child is live, namely the tracked process; the runner's open descriptors
are exactly its current two handles; within each call the operations occur in
terminate-close-open-spawn order; the concatenated trace never double-closes
or closes a foreign descriptor; and each call closes exactly the descriptors
the previous call had opened (the first call closes nothing). -/
theorem claim_C2 (command : List String) (stdout stderr : Option String)
    (bs : List OSBehavior)
    (hbs : ∀ b ∈ bs, b.outOpenOk = true ∧ b.errOpenOk = true ∧ b.spawnOk = true) :
    (∀ r ∈ restartSeq (initRunnerState command stdout stderr) initWorld bs,
        r.exitCode = none ∧
        r.state.process.isSome = true ∧
        r.world.livePids = trackedPids r.state ∧
        r.world.livePids.card = 1 ∧
        r.world.openFds = handleFds r.state ∧
        (r.ops.map opPhase).Chain' (· ≤ ·)) ∧
    closesValid initWorld.openFds
      ((restartSeq (initRunnerState command stdout stderr) initWorld bs).bind
        RestartOut.ops) = true ∧
    (restartSeq (initRunnerState command stdout stderr) initWorld bs).Chain'
      (fun r1 r2 =>
        closedFds r2.ops = r1.state.outfp.toList ++ r1.state.errfp.toList) ∧
    ∀ r ∈ (restartSeq (initRunnerState command stdout stderr) initWorld bs).head?,
      closedFds r.ops = [] := by
  have h := restartSeq_props bs (initRunnerState command stdout stderr) initWorld hbs
    (initRunnerInv command stdout stderr)
  refine ⟨h.1, h.2.1, h.2.2.1, ?_⟩
  intro r hr
  have := h.2.2.2 r hr
  simpa [initRunnerState] using this

/-- Witness for C2: two successive restarts (the second with a failing
`terminate` signal, i.e. the child already died) all succeed, keep exactly
one live child each, and the whole trace is close-valid. -/
theorem claim_C2_witness :
    (∀ r ∈ restartSeq (initRunnerState ["cmd"] (some "o") (some "e")) initWorld
        [⟨true, true, true, true⟩, ⟨false, true, true, true⟩],
      r.exitCode = none ∧ r.world.livePids.card = 1) ∧
    closesValid initWorld.openFds
      ((restartSeq (initRunnerState ["cmd"] (some "o") (some "e")) initWorld
        [⟨true, true, true, true⟩, ⟨false, true, true, true⟩]).bind
          RestartOut.ops) = true := by
  have h := claim_C2 ["cmd"] (some "o") (some "e")
    [⟨true, true, true, true⟩, ⟨false, true, true, true⟩] (by decide)
  exact ⟨fun r hr => ⟨(h.1 r hr).1, (h.1 r hr).2.2.2.1⟩, h.2.1⟩

end Rundogd
